import Mathlib

/-!
Shallow embedding of `src/gpu_benchmark/gpu_monitor_nvml.cpp`: an NVML-based
monitor that forks a child workload, samples five GPU metrics in a loop until
the child exits, aggregates arithmetic means, writes a key=value report, and
propagates the child's wait status as its own exit code.

C `double` values are modelled as `ℚ`; the NVML driver, the OS fork/exec and
wait facilities, and the clock are modelled as an environment oracle `Env`.
Sleeping (`std::this_thread::sleep_for`) has no effect on any observable
state of the monitor, so it is a no-op in the embedding.
-/

namespace GpuMonitor

/-- Result of the five independent NVML metric queries of one loop iteration
(lines 82-100).  `some v` models `NVML_SUCCESS` with value `v`; `none` models
any failing `nvmlReturn_t`.  `power_mw` is milliwatts, as returned by
`nvmlDeviceGetPowerUsage`. -/
structure MetricReads where
  power_mw : Option Nat
  core_mhz : Option Nat
  mem_mhz : Option Nat
  util_gpu : Option Nat
  temp : Option Nat
deriving Repr, DecidableEq

/-- One telemetry sample: the five per-iteration values pushed into the
parallel vectors (lines 84, 88, 92, 96, 100). -/
structure Sample where
  power_w : ℚ
  core_clock_mhz : Nat
  mem_clock_mhz : Nat
  utilization_pct : Nat
  temperature_c : Nat
deriving Repr, DecidableEq

/-- One telemetry read (lines 82-100): each metric query that fails is
substituted by zero; a successful power read is converted from milliwatts to
watts (`power_mw / 1000.0`). -/
def readSample (r : MetricReads) : Sample :=
  { power_w := match r.power_mw with
      | some mw => (mw : ℚ) / 1000
      | none => 0
  , core_clock_mhz := r.core_mhz.getD 0
  , mem_clock_mhz := r.mem_mhz.getD 0
  , utilization_pct := r.util_gpu.getD 0
  , temperature_c := r.temp.getD 0 }

/-- The five parallel sample vectors `powers`, `core_clocks`, `mem_clocks`,
`utils`, `temps` (lines 66-70). -/
structure SeriesState where
  powers : List ℚ
  core_clocks : List Nat
  mem_clocks : List Nat
  utils : List Nat
  temps : List Nat
deriving Repr, DecidableEq

/-- The initial (empty) series, as declared before the loop. -/
def initSeries : SeriesState := ⟨[], [], [], [], []⟩

/-- The five `push_back` calls of one iteration (lines 102-106). -/
def appendSample (s : SeriesState) (x : Sample) : SeriesState :=
  { powers := s.powers ++ [x.power_w]
  , core_clocks := s.core_clocks ++ [x.core_clock_mhz]
  , mem_clocks := s.mem_clocks ++ [x.mem_clock_mhz]
  , utils := s.utils ++ [x.utilization_pct]
  , temps := s.temps ++ [x.temperature_c] }

/-- The sampling loop (lines 76-111).  Each list element is one iteration's
environment: the non-blocking `waitpid(WNOHANG)` liveness result
(`true` iff `r == pid`, i.e. the child was observed to have exited) and the
five metric-read outcomes.  The loop samples and appends unconditionally,
and only afterwards breaks when the poll said the child was done; the list
acts as fuel for iterations beyond the modelled trace. -/
def samplingLoop : List (Bool × MetricReads) → SeriesState → SeriesState
  | [], s => s
  | (done, r) :: rest, s =>
      let s' := appendSample s (readSample r)
      if done then s' else samplingLoop rest s'

/-- The aggregated statistics computed after the loop (lines 113-135).
The timestamp is produced separately by the reporter, at write time. -/
structure RunSummary where
  avg_power_w : ℚ
  avg_core_clock_mhz : ℚ
  avg_mem_clock_mhz : ℚ
  avg_utilization_pct : ℚ
  avg_temperature_c : ℚ
  sample_count : Nat
  duration_s : ℚ
  energy_j : ℚ
deriving Repr, DecidableEq

/-- Aggregation (lines 117-135): `n = powers.size()`, the summation loop
runs `i = 0 .. n-1` indexing all five vectors (modelled by `take n`), each
average is `sum / n` when `n > 0` and `0.0` otherwise, and
`energy_j = avg_p * duration_s`. -/
def aggregate (s : SeriesState) (duration : ℚ) : RunSummary :=
  let n := s.powers.length
  let sum_p : ℚ := (s.powers.take n).sum
  let sum_core : Nat := (s.core_clocks.take n).sum
  let sum_mem : Nat := (s.mem_clocks.take n).sum
  let sum_util : Nat := (s.utils.take n).sum
  let sum_temp : Nat := (s.temps.take n).sum
  let avg_p : ℚ := if 0 < n then sum_p / (n : ℚ) else 0
  { avg_power_w := avg_p
  , avg_core_clock_mhz := if 0 < n then (sum_core : ℚ) / (n : ℚ) else 0
  , avg_mem_clock_mhz := if 0 < n then (sum_mem : ℚ) / (n : ℚ) else 0
  , avg_utilization_pct := if 0 < n then (sum_util : ℚ) / (n : ℚ) else 0
  , avg_temperature_c := if 0 < n then (sum_temp : ℚ) / (n : ℚ) else 0
  , sample_count := n
  , duration_s := duration
  , energy_j := avg_p * duration }

/-- Three decimal digits with leading zeros: the fractional part printed by
`std::fixed << std::setprecision(3)`. -/
def pad3 (n : Nat) : String :=
  String.mk [Char.ofNat (48 + n / 100 % 10), Char.ofNat (48 + n / 10 % 10),
    Char.ofNat (48 + n % 10)]

/-- Fixed-point rendering with three decimals, modelling
`std::fixed << std::setprecision(3)` over `ℚ` in place of `double`
(the value is rounded to the nearest thousandth). -/
def fmt3 (q : ℚ) : String :=
  let m : ℤ := Int.floor (q * 1000 + 1 / 2)
  let v : Nat := m.natAbs
  (if m < 0 then "-" else "") ++ Nat.repr (v / 1000) ++ "." ++ pad3 (v % 1000)

/-- The nine `key=value` report entries, in the order they are streamed to
the output file (lines 150-159).  `timestamp` is the `strftime` string; the
numeric fields are printed under `std::fixed << std::setprecision(3)`;
`samples` is the integer `n`. -/
def reportPairs (ts : String) (sm : RunSummary) : List (String × String) :=
  [("timestamp", ts),
   ("power_avg_w", fmt3 sm.avg_power_w),
   ("gpu_core_clock_MHz", fmt3 sm.avg_core_clock_mhz),
   ("gpu_mem_clock_MHz", fmt3 sm.avg_mem_clock_mhz),
   ("gpu_utilization_pct", fmt3 sm.avg_utilization_pct),
   ("gpu_temp_c", fmt3 sm.avg_temperature_c),
   ("samples", Nat.repr sm.sample_count),
   ("duration_s", fmt3 sm.duration_s),
   ("energy_j", fmt3 sm.energy_j)]

/-- The report as the list of lines written to the file. -/
def reportLines (ts : String) (sm : RunSummary) : List String :=
  (reportPairs ts sm).map (fun p => p.fst ++ "=" ++ p.snd)

/-- Opening the output file with `std::ios::out | std::ios::trunc`
(line 138): the resulting file content is the new content, whatever the
prior content of the path (`none` = no existing file) was. -/
def writeTrunc (_prior : Option String) (content : String) : String :=
  content

/-- The `signed char` cast used by glibc's `WIFSIGNALED`. -/
def signedChar (n : Nat) : ℤ :=
  if n % 256 < 128 then (n % 256 : ℤ) else (n % 256 : ℤ) - 256

/-- glibc `WIFEXITED(status)`: low 7 bits are zero. -/
def wIFEXITED (status : Nat) : Bool :=
  status % 128 == 0

/-- glibc `WEXITSTATUS(status)`: bits 8-15. -/
def wEXITSTATUS (status : Nat) : Nat :=
  status / 256 % 256

/-- glibc `WIFSIGNALED(status)`:
`((signed char) (((status & 0x7f) + 1) >> 1) > 0)`. -/
def wIFSIGNALED (status : Nat) : Bool :=
  decide (0 < signedChar (status % 128 + 1) / 2)

/-- glibc `WTERMSIG(status)`: low 7 bits. -/
def wTERMSIG (status : Nat) : Nat :=
  status % 128

/-- Exit propagation (lines 164-167): normal exit returns the child's exit
code, signal termination returns `128 + signal`, otherwise `0`. -/
def monitorReturn (status : Nat) : Nat :=
  if wIFEXITED status then wEXITSTATUS status
  else if wIFSIGNALED status then 128 + wTERMSIG status
  else 0

/-- The wait-status word produced by the kernel for a child that exited
normally with the given code: `code << 8` (code truncated to 8 bits). -/
def encodeExited (code : Nat) : Nat :=
  code % 256 * 256

/-- The wait-status word produced by the kernel for a child terminated by
the given signal (1-126, no core-dump flag): the signal number itself. -/
def encodeSignaled (sig : Nat) : Nat :=
  sig % 128

/-- Digit-accumulation part of C `atoi`: consume the maximal prefix of
decimal digits. -/
def atoiDigits : List Char → ℤ → ℤ
  | c :: cs, acc =>
      if c.isDigit then atoiDigits cs (acc * 10 + ((c.toNat - 48 : Nat) : ℤ))
      else acc
  | [], acc => acc

/-- `std::atoi` (line 25): skip leading whitespace, optional sign, maximal
digit prefix; any string without a leading number parses to `0`.
(Overflow is undefined behaviour in C and not modelled.) -/
def atoi (s : String) : ℤ :=
  match s.data.dropWhile Char.isWhitespace with
  | '-' :: rest => - atoiDigits rest 0
  | '+' :: rest => atoiDigits rest 0
  | rest => atoiDigits rest 0

/-- Environment oracle for one run of `main`: the outcomes of the OS and
NVML calls.  `iters` gives, per loop iteration, the `WNOHANG` poll result
and the five metric reads; `childStatus` is the wait-status word the kernel
reports for the child (filled by whichever `waitpid` reaps it);
`duration` is the steady-clock span measured at line 115. -/
structure Env where
  forkOk : Bool
  nvmlInitOk : Bool
  deviceOk : Bool
  iters : List (Bool × MetricReads)
  childStatus : Nat
  duration : ℚ
  outFileOk : Bool
  timestamp : String
deriving Repr, DecidableEq

/-- Observable result of one run of `main`: the process exit code, the
report lines if a report file was written, and whether the child was
reaped (via the loop's successful `WNOHANG` poll or a blocking
`waitpid`). -/
structure RunResult where
  exitCode : Nat
  report : Option (List String)
  reaped : Bool
deriving Repr, DecidableEq

/-- The whole of `main` (lines 19-168) as a function of the argument vector
and the environment oracle.  `none` models divergence: the loop never
observes the child's exit within the modelled trace.  `sample_ms` is only
ever passed to `sleep_for`, which has no observable effect, so its binding
is discarded. -/
def monitorMain (argv : List String) (env : Env) : Option RunResult :=
  if argv.length < 4 then some { exitCode := 2, report := none, reaped := false }
  else
    let _sample_ms := atoi (argv.getD 1 "")
    if !env.forkOk then some { exitCode := 3, report := none, reaped := false }
    else if !env.nvmlInitOk then some { exitCode := 4, report := none, reaped := true }
    else if !env.deviceOk then some { exitCode := 5, report := none, reaped := true }
    else if !(env.iters.any (fun p => p.fst)) then none
    else
      let series := samplingLoop env.iters initSeries
      let summary := aggregate series env.duration
      if !env.outFileOk then some { exitCode := 6, report := none, reaped := true }
      else some { exitCode := monitorReturn env.childStatus
                , report := some (reportLines env.timestamp summary)
                , reaped := true }

lemma powers_length_le_samplingLoop (iters : List (Bool × MetricReads)) :
    ∀ s : SeriesState, s.powers.length ≤ (samplingLoop iters s).powers.length := by
  induction iters with
  | nil => intro s; exact le_refl _
  | cons hd tl ih =>
    intro s
    obtain ⟨done, r⟩ := hd
    simp only [samplingLoop]
    split
    · simp [appendSample]
    · exact le_trans (by simp [appendSample]) (ih _)

/-- Length invariant preserved by the loop: all five vectors stay as long
as the `powers` vector. -/
lemma samplingLoop_balanced (iters : List (Bool × MetricReads)) :
    ∀ s : SeriesState,
      s.core_clocks.length = s.powers.length →
      s.mem_clocks.length = s.powers.length →
      s.utils.length = s.powers.length →
      s.temps.length = s.powers.length →
      (samplingLoop iters s).core_clocks.length = (samplingLoop iters s).powers.length ∧
      (samplingLoop iters s).mem_clocks.length = (samplingLoop iters s).powers.length ∧
      (samplingLoop iters s).utils.length = (samplingLoop iters s).powers.length ∧
      (samplingLoop iters s).temps.length = (samplingLoop iters s).powers.length := by
  induction iters with
  | nil => intro s h1 h2 h3 h4; exact ⟨h1, h2, h3, h4⟩
  | cons hd tl ih =>
    intro s h1 h2 h3 h4
    obtain ⟨done, r⟩ := hd
    simp only [samplingLoop]
    split
    · simp [appendSample, h1, h2, h3, h4]
    · exact ih _ (by simp [appendSample, h1]) (by simp [appendSample, h2])
        (by simp [appendSample, h3]) (by simp [appendSample, h4])

/-- C1: the sampling loop follows sample-then-check ordering: each iteration
polls, then unconditionally takes and appends one sample, and only then
stops when the poll indicated termination; in particular a first poll that
already reports the child gone still yields exactly one sample, and the
series is non-empty whenever the loop runs at least one iteration. -/
theorem claim1_sample_then_check (iters : List (Bool × MetricReads))
    (done : Bool) (r r1 : MetricReads) (rest rest1 : List (Bool × MetricReads))
    (s : SeriesState) (hne : iters ≠ []) :
    1 ≤ (samplingLoop iters initSeries).powers.length ∧
    samplingLoop ((true, r1) :: rest1) initSeries
      = appendSample initSeries (readSample r1) ∧
    samplingLoop ((done, r) :: rest) s
      = (if done then appendSample s (readSample r)
         else samplingLoop rest (appendSample s (readSample r))) := by
  refine ⟨?_, rfl, rfl⟩
  match iters, hne with
  | (d0, r0) :: rest0, _ =>
    simp only [samplingLoop]
    split
    · simp [appendSample, initSeries]
    · calc 1 = (appendSample initSeries (readSample r0)).powers.length := by
            simp [appendSample, initSeries]
        _ ≤ _ := powers_length_le_samplingLoop _ _

/-- Closed instance of `claim1_sample_then_check`: with a single iteration
whose poll already reports the child exited, the loop still records exactly
one sample. -/
theorem claim1_sample_then_check_witness :
    1 ≤ (samplingLoop [(true, ⟨none, none, none, none, none⟩)] initSeries).powers.length ∧
    samplingLoop [(true, ⟨none, none, none, none, none⟩)] initSeries
      = appendSample initSeries (readSample ⟨none, none, none, none, none⟩) ∧
    samplingLoop [(true, ⟨none, none, none, none, none⟩)] initSeries
      = (if true then appendSample initSeries (readSample ⟨none, none, none, none, none⟩)
         else samplingLoop [] (appendSample initSeries (readSample ⟨none, none, none, none, none⟩))) :=
  claim1_sample_then_check [(true, ⟨none, none, none, none, none⟩)] true
    ⟨none, none, none, none, none⟩ ⟨none, none, none, none, none⟩ [] [] initSeries
    (List.cons_ne_nil _ _)

/-- C5: the reported energy always equals the average power multiplied by
the wall-clock duration (first-order approximation, not a time-integral),
for every series, in particular every non-empty one. -/
theorem claim5_energy_eq_avg_power_mul_duration (s : SeriesState) (d : ℚ) :
    (aggregate s d).energy_j = (aggregate s d).avg_power_w * (aggregate s d).duration_s ∧
    (aggregate s d).duration_s = d :=
  ⟨rfl, rfl⟩

/-- C6: each of the five metric queries is absorbed independently: failing
one query zeroes that field alone, leaves every other field exactly as it
would have been, and the read still completes with a full sample being
appended (each vector grows by one). -/
theorem claim6_per_metric_fault_absorption (r : MetricReads) (s : SeriesState) :
    ((readSample { r with power_mw := none }).power_w = 0 ∧
     (readSample { r with power_mw := none }).core_clock_mhz = (readSample r).core_clock_mhz ∧
     (readSample { r with power_mw := none }).mem_clock_mhz = (readSample r).mem_clock_mhz ∧
     (readSample { r with power_mw := none }).utilization_pct = (readSample r).utilization_pct ∧
     (readSample { r with power_mw := none }).temperature_c = (readSample r).temperature_c) ∧
    ((readSample { r with core_mhz := none }).core_clock_mhz = 0 ∧
     (readSample { r with core_mhz := none }).power_w = (readSample r).power_w ∧
     (readSample { r with core_mhz := none }).mem_clock_mhz = (readSample r).mem_clock_mhz ∧
     (readSample { r with core_mhz := none }).utilization_pct = (readSample r).utilization_pct ∧
     (readSample { r with core_mhz := none }).temperature_c = (readSample r).temperature_c) ∧
    ((readSample { r with mem_mhz := none }).mem_clock_mhz = 0 ∧
     (readSample { r with mem_mhz := none }).power_w = (readSample r).power_w ∧
     (readSample { r with mem_mhz := none }).core_clock_mhz = (readSample r).core_clock_mhz ∧
     (readSample { r with mem_mhz := none }).utilization_pct = (readSample r).utilization_pct ∧
     (readSample { r with mem_mhz := none }).temperature_c = (readSample r).temperature_c) ∧
    ((readSample { r with util_gpu := none }).utilization_pct = 0 ∧
     (readSample { r with util_gpu := none }).power_w = (readSample r).power_w ∧
     (readSample { r with util_gpu := none }).core_clock_mhz = (readSample r).core_clock_mhz ∧
     (readSample { r with util_gpu := none }).mem_clock_mhz = (readSample r).mem_clock_mhz ∧
     (readSample { r with util_gpu := none }).temperature_c = (readSample r).temperature_c) ∧
    ((readSample { r with temp := none }).temperature_c = 0 ∧
     (readSample { r with temp := none }).power_w = (readSample r).power_w ∧
     (readSample { r with temp := none }).core_clock_mhz = (readSample r).core_clock_mhz ∧
     (readSample { r with temp := none }).mem_clock_mhz = (readSample r).mem_clock_mhz ∧
     (readSample { r with temp := none }).utilization_pct = (readSample r).utilization_pct) ∧
    ((appendSample s (readSample r)).powers.length = s.powers.length + 1 ∧
     (appendSample s (readSample r)).core_clocks.length = s.core_clocks.length + 1 ∧
     (appendSample s (readSample r)).mem_clocks.length = s.mem_clocks.length + 1 ∧
     (appendSample s (readSample r)).utils.length = s.utils.length + 1 ∧
     (appendSample s (readSample r)).temps.length = s.temps.length + 1) := by
  refine ⟨⟨rfl, rfl, rfl, rfl, rfl⟩, ⟨rfl, rfl, rfl, rfl, rfl⟩, ⟨rfl, rfl, rfl, rfl, rfl⟩,
    ⟨rfl, rfl, rfl, rfl, rfl⟩, ⟨rfl, rfl, rfl, rfl, rfl⟩, ?_, ?_, ?_, ?_, ?_⟩ <;>
    simp [appendSample]

/-- C9: the five series built by the loop always have equal length (every
iteration appends exactly one element to each), and the reported sample
count equals that common length, which is the divisor `n = powers.size()`
used for every average. -/
theorem claim9_parallel_series_invariant (iters : List (Bool × MetricReads))
    (d : ℚ) (s0 : SeriesState) (x : Sample) :
    ((samplingLoop iters initSeries).core_clocks.length
        = (samplingLoop iters initSeries).powers.length ∧
     (samplingLoop iters initSeries).mem_clocks.length
        = (samplingLoop iters initSeries).powers.length ∧
     (samplingLoop iters initSeries).utils.length
        = (samplingLoop iters initSeries).powers.length ∧
     (samplingLoop iters initSeries).temps.length
        = (samplingLoop iters initSeries).powers.length) ∧
    (aggregate (samplingLoop iters initSeries) d).sample_count
        = (samplingLoop iters initSeries).powers.length ∧
    ((appendSample s0 x).powers.length = s0.powers.length + 1 ∧
     (appendSample s0 x).core_clocks.length = s0.core_clocks.length + 1 ∧
     (appendSample s0 x).mem_clocks.length = s0.mem_clocks.length + 1 ∧
     (appendSample s0 x).utils.length = s0.utils.length + 1 ∧
     (appendSample s0 x).temps.length = s0.temps.length + 1) := by
  refine ⟨samplingLoop_balanced iters initSeries rfl rfl rfl rfl, rfl,
    ?_, ?_, ?_, ?_, ?_⟩ <;> simp [appendSample]

set_option maxRecDepth 4096 in
lemma monitorReturn_encodeExited (code : Nat) (h : code < 256) :
    monitorReturn (encodeExited code) = code := by
  have key : ∀ c, c < 256 → monitorReturn (encodeExited c) = c := by decide
  exact key code h

set_option maxRecDepth 4096 in
lemma monitorReturn_encodeSignaled (sig : Nat) (h1 : 1 ≤ sig) (h2 : sig ≤ 126) :
    monitorReturn (encodeSignaled sig) = 128 + sig := by
  have key : ∀ s, s < 127 → 1 ≤ s → monitorReturn (encodeSignaled s) = 128 + s := by
    decide
  exact key sig (by omega) h1

/-- Reduction of `main` on the fully successful path: child spawned, NVML
initialized, device bound, child exit observed by the poll, output file
opened. -/
lemma monitorMain_success (argv : List String) (env : Env)
    (h4 : 4 ≤ argv.length) (hf : env.forkOk = true) (hn : env.nvmlInitOk = true)
    (hd : env.deviceOk = true) (hi : env.iters.any (fun p => p.fst) = true)
    (ho : env.outFileOk = true) :
    monitorMain argv env
      = some { exitCode := monitorReturn env.childStatus
             , report := some (reportLines env.timestamp
                 (aggregate (samplingLoop env.iters initSeries) env.duration))
             , reaped := true } := by
  have hlt : ¬ argv.length < 4 := by omega
  simp [monitorMain, hlt, hf, hn, hd, hi, ho]

/-- C2: on the sampling-and-reporting path the monitor's exit code is the
exit-propagation of the child's wait status: a normal exit yields the
child's own exit code (7 maps to 7), a signal termination yields
128 + signal (signal 9 maps to 137), and a status that is neither yields
0. -/
theorem claim2_exit_propagation (argv : List String) (env : Env)
    (code sig st : Nat)
    (h4 : 4 ≤ argv.length) (hf : env.forkOk = true) (hn : env.nvmlInitOk = true)
    (hd : env.deviceOk = true) (hi : env.iters.any (fun p => p.fst) = true)
    (ho : env.outFileOk = true)
    (hc : code < 256) (hs1 : 1 ≤ sig) (hs2 : sig ≤ 126)
    (we : wIFEXITED st = false) (ws : wIFSIGNALED st = false) :
    (monitorMain argv env).map RunResult.exitCode
        = some (monitorReturn env.childStatus) ∧
    monitorReturn (encodeExited code) = code ∧
    monitorReturn (encodeSignaled sig) = 128 + sig ∧
    monitorReturn (encodeExited 7) = 7 ∧
    monitorReturn (encodeSignaled 9) = 137 ∧
    monitorReturn st = 0 := by
  refine ⟨?_, monitorReturn_encodeExited code hc,
    monitorReturn_encodeSignaled sig hs1 hs2, rfl, rfl, ?_⟩
  · rw [monitorMain_success argv env h4 hf hn hd hi ho]
    rfl
  · simp [monitorReturn, we, ws]

/-- Closed instance of `claim2_exit_propagation` at a child that exited
normally with code 7, including the 7↦7 and 9↦137 mappings. -/
theorem claim2_exit_propagation_witness :
    (monitorMain ["monitor", "100", "out.txt", "bench"]
        { forkOk := true, nvmlInitOk := true, deviceOk := true,
          iters := [(true, ⟨none, none, none, none, none⟩)],
          childStatus := encodeExited 7, duration := 1, outFileOk := true,
          timestamp := "T" }).map RunResult.exitCode
        = some (monitorReturn (encodeExited 7)) ∧
    monitorReturn (encodeExited 7) = 7 ∧
    monitorReturn (encodeSignaled 9) = 128 + 9 ∧
    monitorReturn (encodeExited 7) = 7 ∧
    monitorReturn (encodeSignaled 9) = 137 ∧
    monitorReturn 127 = 0 :=
  claim2_exit_propagation ["monitor", "100", "out.txt", "bench"]
    { forkOk := true, nvmlInitOk := true, deviceOk := true,
      iters := [(true, ⟨none, none, none, none, none⟩)],
      childStatus := encodeExited 7, duration := 1, outFileOk := true,
      timestamp := "T" }
    7 9 127 (by decide) rfl rfl rfl rfl rfl (by decide) (by decide) (by decide)
    (by decide) (by decide)

/-- C3 counterexample: with telemetry initialization failing and a child
that exited normally with code 7, the monitor exits 4 — its own error
code — not the child's exit code 7 (it does reap the child and writes no
report). -/
theorem claim3_counterexample :
    monitorMain ["monitor", "100", "out.txt", "bench"]
      { forkOk := true, nvmlInitOk := false, deviceOk := true, iters := [],
        childStatus := encodeExited 7, duration := 0, outFileOk := true,
        timestamp := "" }
      = some { exitCode := 4, report := none, reaped := true } ∧
    monitorReturn (encodeExited 7) = 7 ∧ (4 : Nat) ≠ 7 :=
  ⟨rfl, rfl, by decide⟩

/-- C3 amended: if telemetry session initialization fails (exit 4) or the
device cannot be bound (exit 5), the monitor still blocks until the child
exits and reaps it, and produces no report file, but it exits with its own
error code, not the child's exit code. -/
theorem claim3_degraded_path (argv : List String) (env1 env2 : Env)
    (h4 : 4 ≤ argv.length)
    (hf1 : env1.forkOk = true) (hn1 : env1.nvmlInitOk = false)
    (hf2 : env2.forkOk = true) (hn2 : env2.nvmlInitOk = true)
    (hd2 : env2.deviceOk = false) :
    monitorMain argv env1 = some { exitCode := 4, report := none, reaped := true } ∧
    monitorMain argv env2 = some { exitCode := 5, report := none, reaped := true } := by
  have hlt : ¬ argv.length < 4 := by omega
  constructor
  · simp [monitorMain, hlt, hf1, hn1]
  · simp [monitorMain, hlt, hf2, hn2, hd2]

/-- Closed instance of `claim3_degraded_path` for concrete environments. -/
theorem claim3_degraded_path_witness :
    monitorMain ["monitor", "100", "out.txt", "bench"]
      { forkOk := true, nvmlInitOk := false, deviceOk := true, iters := [],
        childStatus := encodeExited 9, duration := 0, outFileOk := true,
        timestamp := "" }
      = some { exitCode := 4, report := none, reaped := true } ∧
    monitorMain ["monitor", "100", "out.txt", "bench"]
      { forkOk := true, nvmlInitOk := true, deviceOk := false, iters := [],
        childStatus := encodeExited 9, duration := 0, outFileOk := true,
        timestamp := "" }
      = some { exitCode := 5, report := none, reaped := true } :=
  claim3_degraded_path ["monitor", "100", "out.txt", "bench"] _ _
    (by decide) rfl rfl rfl rfl rfl

/-- C4 counterexample: for a nonexistent command the child exits 127 from
the failed `execvp`; with telemetry available the monitor then runs its
normal sampling path, exits 127 (not 3), and DOES write a report file. -/
theorem claim4_counterexample :
    (monitorMain ["monitor", "100", "out.txt", "no_such_cmd"]
        { forkOk := true, nvmlInitOk := true, deviceOk := true,
          iters := [(true, ⟨none, none, none, none, none⟩)],
          childStatus := encodeExited 127, duration := 1, outFileOk := true,
          timestamp := "T" }).map (fun r => (r.exitCode, r.report.isSome))
      = some (127, true) ∧ (127 : Nat) ≠ 3 :=
  ⟨rfl, by decide⟩

/-- C4 amended: a command that cannot be located or executed makes the
child exit 127, which the monitor propagates as its own exit code after
writing the report (when telemetry initialized and the output file
opened); exit code 3 is produced only when `fork` itself fails, in which
case no report is written. -/
theorem claim4_nonexistent_command (argv : List String) (env envF : Env)
    (h4 : 4 ≤ argv.length) (hf : env.forkOk = true) (hn : env.nvmlInitOk = true)
    (hd : env.deviceOk = true) (hi : env.iters.any (fun p => p.fst) = true)
    (ho : env.outFileOk = true) (hcs : env.childStatus = encodeExited 127)
    (hfF : envF.forkOk = false) :
    (monitorMain argv env).map (fun r => (r.exitCode, r.report.isSome))
      = some (127, true) ∧
    monitorMain argv envF = some { exitCode := 3, report := none, reaped := false } := by
  have hlt : ¬ argv.length < 4 := by omega
  constructor
  · rw [monitorMain_success argv env h4 hf hn hd hi ho, hcs,
      monitorReturn_encodeExited 127 (by omega)]
    rfl
  · simp [monitorMain, hlt, hfF]

/-- Closed instance of `claim4_nonexistent_command` for concrete
environments. -/
theorem claim4_nonexistent_command_witness :
    (monitorMain ["monitor", "100", "out.txt", "no_such_cmd"]
        { forkOk := true, nvmlInitOk := true, deviceOk := true,
          iters := [(true, ⟨none, none, none, none, none⟩)],
          childStatus := encodeExited 127, duration := 1, outFileOk := true,
          timestamp := "T" }).map (fun r => (r.exitCode, r.report.isSome))
      = some (127, true) ∧
    monitorMain ["monitor", "100", "out.txt", "no_such_cmd"]
      { forkOk := false, nvmlInitOk := true, deviceOk := true, iters := [],
        childStatus := 0, duration := 0, outFileOk := true, timestamp := "" }
      = some { exitCode := 3, report := none, reaped := false } :=
  claim4_nonexistent_command ["monitor", "100", "out.txt", "no_such_cmd"] _ _
    (by decide) rfl rfl rfl rfl rfl rfl rfl

/-- C7: the report is written by truncation (the resulting file content is
independent of any prior content at the path) and consists of exactly nine
`key=value` lines with exactly the nine specified keys in order; every
numeric value is rendered by the fixed 3-decimal formatter (whose output
always ends in a dot followed by exactly three digits), except `samples`,
which is printed as an integer count. -/
theorem claim7_report_format (ts : String) (sm : RunSummary)
    (prior1 prior2 : Option String) (content : String) (q : ℚ) (k : Nat) :
    (reportLines ts sm).length = 9 ∧
    (reportPairs ts sm).map Prod.fst
      = ["timestamp", "power_avg_w", "gpu_core_clock_MHz", "gpu_mem_clock_MHz",
         "gpu_utilization_pct", "gpu_temp_c", "samples", "duration_s", "energy_j"] ∧
    reportLines ts sm = (reportPairs ts sm).map (fun p => p.fst ++ "=" ++ p.snd) ∧
    writeTrunc prior1 content = writeTrunc prior2 content ∧
    ("power_avg_w", fmt3 sm.avg_power_w) ∈ reportPairs ts sm ∧
    ("samples", Nat.repr sm.sample_count) ∈ reportPairs ts sm ∧
    ("duration_s", fmt3 sm.duration_s) ∈ reportPairs ts sm ∧
    ("energy_j", fmt3 sm.energy_j) ∈ reportPairs ts sm ∧
    (∃ kk, kk < 1000 ∧ ∃ pre, fmt3 q = pre ++ "." ++ pad3 kk) ∧
    (pad3 k).length = 3 := by
  refine ⟨rfl, rfl, rfl, rfl, by simp [reportPairs], by simp [reportPairs],
    by simp [reportPairs], by simp [reportPairs], ?_, rfl⟩
  refine ⟨(Int.floor (q * 1000 + 1 / 2)).natAbs % 1000, by omega,
    (if Int.floor (q * 1000 + 1 / 2) < 0 then "-" else "")
      ++ Nat.repr ((Int.floor (q * 1000 + 1 / 2)).natAbs / 1000), ?_⟩
  rfl

/-- C8: aggregating the empty series yields zero for every average and a
zero sample count; aggregating a non-empty series (with the five vectors
equally long, as the loop guarantees) yields the unweighted arithmetic mean
of each full series. -/
theorem claim8_empty_and_mean_aggregation (s : SeriesState) (d d0 : ℚ)
    (hc : s.core_clocks.length = s.powers.length)
    (hm : s.mem_clocks.length = s.powers.length)
    (hu : s.utils.length = s.powers.length)
    (ht : s.temps.length = s.powers.length)
    (hne : s.powers ≠ []) :
    ((aggregate initSeries d0).avg_power_w = 0 ∧
     (aggregate initSeries d0).avg_core_clock_mhz = 0 ∧
     (aggregate initSeries d0).avg_mem_clock_mhz = 0 ∧
     (aggregate initSeries d0).avg_utilization_pct = 0 ∧
     (aggregate initSeries d0).avg_temperature_c = 0 ∧
     (aggregate initSeries d0).sample_count = 0) ∧
    ((aggregate s d).avg_power_w = s.powers.sum / (s.powers.length : ℚ) ∧
     (aggregate s d).avg_core_clock_mhz
        = (s.core_clocks.sum : ℚ) / (s.core_clocks.length : ℚ) ∧
     (aggregate s d).avg_mem_clock_mhz
        = (s.mem_clocks.sum : ℚ) / (s.mem_clocks.length : ℚ) ∧
     (aggregate s d).avg_utilization_pct
        = (s.utils.sum : ℚ) / (s.utils.length : ℚ) ∧
     (aggregate s d).avg_temperature_c
        = (s.temps.sum : ℚ) / (s.temps.length : ℚ) ∧
     (aggregate s d).sample_count = s.powers.length) := by
  have hn : 0 < s.powers.length := List.length_pos.mpr hne
  have tp : s.powers.take s.powers.length = s.powers :=
    List.take_of_length_le (le_of_eq rfl)
  have tc : s.core_clocks.take s.powers.length = s.core_clocks :=
    List.take_of_length_le (le_of_eq hc)
  have tm : s.mem_clocks.take s.powers.length = s.mem_clocks :=
    List.take_of_length_le (le_of_eq hm)
  have tu : s.utils.take s.powers.length = s.utils :=
    List.take_of_length_le (le_of_eq hu)
  have tt : s.temps.take s.powers.length = s.temps :=
    List.take_of_length_le (le_of_eq ht)
  refine ⟨⟨rfl, rfl, rfl, rfl, rfl, rfl⟩, ?_, ?_, ?_, ?_, ?_, rfl⟩
  · simp only [aggregate]; rw [if_pos hn, tp]
  · simp only [aggregate]; rw [if_pos hn, tc, hc]
  · simp only [aggregate]; rw [if_pos hn, tm, hm]
  · simp only [aggregate]; rw [if_pos hn, tu, hu]
  · simp only [aggregate]; rw [if_pos hn, tt, ht]

/-- Closed instance of `claim8_empty_and_mean_aggregation` on a concrete
two-sample series. -/
theorem claim8_empty_and_mean_aggregation_witness :
    ((aggregate initSeries 2).avg_power_w = 0 ∧
     (aggregate initSeries 2).avg_core_clock_mhz = 0 ∧
     (aggregate initSeries 2).avg_mem_clock_mhz = 0 ∧
     (aggregate initSeries 2).avg_utilization_pct = 0 ∧
     (aggregate initSeries 2).avg_temperature_c = 0 ∧
     (aggregate initSeries 2).sample_count = 0) ∧
    ((aggregate ⟨[10, 20], [1000, 1400], [800, 800], [50, 100], [60, 70]⟩ 3).avg_power_w
        = ([10, 20] : List ℚ).sum / (([10, 20] : List ℚ).length : ℚ) ∧
     (aggregate ⟨[10, 20], [1000, 1400], [800, 800], [50, 100], [60, 70]⟩ 3).avg_core_clock_mhz
        = (([1000, 1400] : List Nat).sum : ℚ) / (([1000, 1400] : List Nat).length : ℚ) ∧
     (aggregate ⟨[10, 20], [1000, 1400], [800, 800], [50, 100], [60, 70]⟩ 3).avg_mem_clock_mhz
        = (([800, 800] : List Nat).sum : ℚ) / (([800, 800] : List Nat).length : ℚ) ∧
     (aggregate ⟨[10, 20], [1000, 1400], [800, 800], [50, 100], [60, 70]⟩ 3).avg_utilization_pct
        = (([50, 100] : List Nat).sum : ℚ) / (([50, 100] : List Nat).length : ℚ) ∧
     (aggregate ⟨[10, 20], [1000, 1400], [800, 800], [50, 100], [60, 70]⟩ 3).avg_temperature_c
        = (([60, 70] : List Nat).sum : ℚ) / (([60, 70] : List Nat).length : ℚ) ∧
     (aggregate ⟨[10, 20], [1000, 1400], [800, 800], [50, 100], [60, 70]⟩ 3).sample_count
        = ([10, 20] : List ℚ).length) :=
  claim8_empty_and_mean_aggregation
    ⟨[10, 20], [1000, 1400], [800, 800], [50, 100], [60, 70]⟩ 3 2
    rfl rfl rfl rfl (by simp)

/-- C10: the sample-interval argument is never validated: the monitor's
entire observable behaviour is unchanged under replacing the interval
string by any other string (so a non-positive or non-numeric interval
produces no configuration error and no distinct exit code), `atoi` parses
a non-numeric string to 0 and accepts negative values, and with at least 4
arguments the monitor proceeds to spawn, sample and write its report
normally. -/
theorem claim10_interval_not_validated (argv : List String) (env : Env)
    (t1 t2 : String)
    (h4 : 4 ≤ argv.length) (hf : env.forkOk = true) (hn : env.nvmlInitOk = true)
    (hd : env.deviceOk = true) (hi : env.iters.any (fun p => p.fst) = true)
    (ho : env.outFileOk = true) :
    monitorMain (argv.set 1 t1) env = monitorMain (argv.set 1 t2) env ∧
    atoi "abc" = 0 ∧ atoi "-7" = -7 ∧ atoi "0" = 0 ∧ atoi "" = 0 ∧
    (monitorMain (argv.set 1 t1) env).map (fun r => r.report.isSome)
      = some true := by
  have h4a : 4 ≤ (argv.set 1 t1).length := by
    rw [List.length_set]; exact h4
  refine ⟨by simp [monitorMain, List.length_set], by decide, by decide,
    by decide, by decide, ?_⟩
  rw [monitorMain_success _ env h4a hf hn hd hi ho]
  rfl

/-- Closed instance of `claim10_interval_not_validated` with the interval
strings "0" and "-100". -/
theorem claim10_interval_not_validated_witness :
    monitorMain (["monitor", "100", "out.txt", "bench"].set 1 "0")
        { forkOk := true, nvmlInitOk := true, deviceOk := true,
          iters := [(true, ⟨none, none, none, none, none⟩)],
          childStatus := encodeExited 0, duration := 1, outFileOk := true,
          timestamp := "T" }
      = monitorMain (["monitor", "100", "out.txt", "bench"].set 1 "-100")
        { forkOk := true, nvmlInitOk := true, deviceOk := true,
          iters := [(true, ⟨none, none, none, none, none⟩)],
          childStatus := encodeExited 0, duration := 1, outFileOk := true,
          timestamp := "T" } ∧
    atoi "abc" = 0 ∧ atoi "-7" = -7 ∧ atoi "0" = 0 ∧ atoi "" = 0 ∧
    (monitorMain (["monitor", "100", "out.txt", "bench"].set 1 "0")
        { forkOk := true, nvmlInitOk := true, deviceOk := true,
          iters := [(true, ⟨none, none, none, none, none⟩)],
          childStatus := encodeExited 0, duration := 1, outFileOk := true,
          timestamp := "T" }).map (fun r => r.report.isSome)
      = some true :=
  claim10_interval_not_validated ["monitor", "100", "out.txt", "bench"] _ "0" "-100"
    (by decide) rfl rfl rfl rfl rfl

end GpuMonitor
